import Mathlib

/-!
Shallow embedding of `src/volume_alert.py`, a volume-spike alerting script:
time bucketing (`get_time_bucket`), historical baseline averaging
(`compute_bucket_averages`), spike detection (`check_recent_spikes`) and the
candle-fetching wrapper (`fetch_candles`).

Modelling conventions:
* Python `datetime` values are `PyDateTime` records (calendar fields plus
  time of day); `timedelta` addition carries through the Gregorian calendar.
* Python floats arising from volume averages, thresholds and prices are
  modelled as rationals; volumes (JSON integers) are naturals.
* Calendar dates handled as opaque day numbers are integers counted from a
  fixed Monday, so `weekday d = d mod 7` matches Python `date.weekday()`.
* Fallible code returns `Except String`; an uncaught Python exception is an
  `Except.error` escaping the function.
* The HTTP transport and the per-day candle provider are oracles passed as
  function arguments, since their behaviour is external input.
-/

/-- Python `datetime` value: Gregorian date plus time of day. -/
structure PyDateTime where
  year : Nat
  month : Nat
  mday : Nat
  hour : Nat
  minute : Nat
  second : Nat
  microsecond : Nat
deriving DecidableEq, Inhabited

/-- Gregorian leap-year test. -/
def isLeapYear (y : Nat) : Bool :=
  (y % 4 == 0 && y % 100 != 0) || y % 400 == 0

/-- Number of days of a Gregorian month. -/
def daysInMonth (y m : Nat) : Nat :=
  if m = 2 then (if isLeapYear y then 29 else 28)
  else if m = 4 ∨ m = 6 ∨ m = 9 ∨ m = 11 then 30
  else 31

/-- Step a `PyDateTime` to the next calendar day, keeping the time of day. -/
def nextDay (d : PyDateTime) : PyDateTime :=
  if d.mday < daysInMonth d.year d.month then { d with mday := d.mday + 1 }
  else if d.month < 12 then { d with month := d.month + 1, mday := 1 }
  else { d with year := d.year + 1, month := 1, mday := 1 }

/-- Python `dt + timedelta(minutes=k)`: time-of-day arithmetic with calendar
day carry. -/
def addMinutes (d : PyDateTime) (k : Nat) : PyDateTime :=
  let total := d.hour * 60 + d.minute + k
  Nat.iterate nextDay (total / 60 / 24)
    { d with hour := (total / 60) % 24, minute := total % 60 }

/-- Python `t_utc.replace(tzinfo=UTC).astimezone(IST)`: Asia/Kolkata is a
fixed UTC+5:30 offset, i.e. 330 minutes. -/
def astIST (d : PyDateTime) : PyDateTime :=
  addMinutes d 330

/-- Two-digit zero padded decimal, as produced by `%M`, `%m`, `%d`, `%I`. -/
def pad2 (n : Nat) : String :=
  if n < 10 then "0" ++ toString n else toString n

/-- Four-digit zero padded decimal, as produced by `%Y`. -/
def pad4 (n : Nat) : String :=
  if n < 10 then "000" ++ toString n
  else if n < 100 then "00" ++ toString n
  else if n < 1000 then "0" ++ toString n
  else toString n

/-- Python `dt.strftime("%I:%M %p")`: zero-padded 12-hour clock with AM/PM. -/
def fmt_I_M_p (d : PyDateTime) : String :=
  pad2 (if d.hour % 12 = 0 then 12 else d.hour % 12) ++ ":" ++ pad2 d.minute ++
    (if d.hour < 12 then " AM" else " PM")

/-- Python `dt.strftime("%Y-%m-%d")`. -/
def fmt_Y_m_d (d : PyDateTime) : String :=
  pad4 d.year ++ "-" ++ pad2 d.month ++ "-" ++ pad2 d.mday

/-- Source constant `BUCKET_MINUTES = 60`. -/
def BUCKET_MINUTES : Nat := 60

/-- First half of `get_time_bucket`: `dt_ist.replace(minute=bucket_start_minute,
second=0, microsecond=0)` with `bucket_start_minute = (minute // BUCKET_MINUTES)
* BUCKET_MINUTES`. -/
def bucket_start_of (dt : PyDateTime) : PyDateTime :=
  { dt with minute := (dt.minute / BUCKET_MINUTES) * BUCKET_MINUTES,
            second := 0, microsecond := 0 }

/-- Second half of `get_time_bucket`: `bucket_start + timedelta(minutes=BUCKET_MINUTES)`. -/
def bucket_end_of (dt : PyDateTime) : PyDateTime :=
  addMinutes (bucket_start_of dt) BUCKET_MINUTES

/-- Source `get_time_bucket(dt_ist)`: label string
`bucket_start.strftime("%I:%M %p") + "–" + bucket_end.strftime("%I:%M %p")`. -/
def get_time_bucket (dt : PyDateTime) : String :=
  fmt_I_M_p (bucket_start_of dt) ++ "–" ++ fmt_I_M_p (bucket_end_of dt)

/-- Numeric value of a decimal digit character. -/
def digitVal (c : Char) : Nat := c.toNat - 48

/-- Decimal value of a digit list, most significant first. -/
def natOfDigits (cs : List Char) : Nat :=
  cs.foldl (fun a c => a * 10 + digitVal c) 0

/-- All characters are decimal digits. -/
def allDigits (cs : List Char) : Bool :=
  cs.all Char.isDigit

/-- Range validation performed by `datetime.strptime` when building the
`datetime` (out-of-range fields raise `ValueError`). -/
def mkValidDateTime (y mo d h mi s us : Nat) : Option PyDateTime :=
  if 1 ≤ mo ∧ mo ≤ 12 ∧ 1 ≤ d ∧ d ≤ daysInMonth y mo ∧ h ≤ 23 ∧ mi ≤ 59 ∧ s ≤ 59
  then some ⟨y, mo, d, h, mi, s, us⟩ else none

/-- Shared date-and-time part of both timestamp formats, the zero-padded
reading of `"%Y-%m-%dT%H:%M:%S."`; returns the parsed fields and the
characters after the dot. -/
def parseDatePart : List Char → Option ((Nat × Nat × Nat × Nat × Nat × Nat) × List Char)
  | y1 :: y2 :: y3 :: y4 :: '-' :: m1 :: m2 :: '-' :: d1 :: d2 :: 'T' ::
      h1 :: h2 :: ':' :: n1 :: n2 :: ':' :: s1 :: s2 :: '.' :: rest =>
    if allDigits [y1, y2, y3, y4, m1, m2, d1, d2, h1, h2, n1, n2, s1, s2] then
      some ((natOfDigits [y1, y2, y3, y4], natOfDigits [m1, m2], natOfDigits [d1, d2],
             natOfDigits [h1, h2], natOfDigits [n1, n2], natOfDigits [s1, s2]), rest)
    else none
  | _ => none

/-- Fraction-digit counts tried by the backtracking regex for `%f` (greedy:
longest first). -/
def fracLengths : List Nat := [6, 5, 4, 3, 2, 1]

/-- Microseconds value of a digit list under `%f`: right-padded to six digits. -/
def padSixValue (ds : List Char) : Nat :=
  natOfDigits (ds ++ List.replicate (6 - ds.length) '0')

/-- Tail of format `"%f000Z"`: the regex `[0-9]{1,6}` followed by literal
`000Z`, with greedy backtracking: the match takes the longest digit run whose
remainder is exactly `000Z`. -/
def parseFracThousandsZ (rest : List Char) : Option Nat :=
  match fracLengths.find? (fun k =>
      (rest.take k).length == k && allDigits (rest.take k) &&
        rest.drop k == ['0', '0', '0', 'Z']) with
  | some k => some (padSixValue (rest.take k))
  | none => none

/-- Python `datetime.strptime(s, "%Y-%m-%dT%H:%M:%S.%f000Z")` on the
zero-padded timestamps this program receives; `none` models `ValueError`. -/
def strptime_f000Z (s : String) : Option PyDateTime :=
  match parseDatePart s.toList with
  | some ((y, mo, d, h, mi, sec), rest) =>
    match parseFracThousandsZ rest with
    | some us => mkValidDateTime y mo d h mi sec us
    | none => none
  | none => none

/-- Python `datetime.strptime(s, "%Y-%m-%dT%H:%M:%S.000Z")` on zero-padded
timestamps; `none` models `ValueError`. -/
def strptime_000Z (s : String) : Option PyDateTime :=
  match parseDatePart s.toList with
  | some ((y, mo, d, h, mi, sec), rest) =>
    if rest = ['0', '0', '0', 'Z'] then mkValidDateTime y mo d h mi sec 0 else none
  | none => none

/-- The `try strptime(fmt1) except ValueError: strptime(fmt2)` pattern used in
both `compute_bucket_averages` and `check_recent_spikes`: `none` means the
second `strptime` raised an uncaught `ValueError`. -/
def parse_candle_time (s : String) : Option PyDateTime :=
  match strptime_f000Z s with
  | some t => some t
  | none => strptime_000Z s

/-- Candle dictionary as consumed by the script: `time` string, integer
`volume`, the optional `complete` key (`none` models an absent key), and the
parsed `mid.o` and `mid.c` prices. -/
structure Candle where
  time : String
  volume : Nat
  complete : Option Bool
  mid_o : ℚ
  mid_c : ℚ
deriving DecidableEq, Inhabited

/-- Source `get_sentiment(candle)`. -/
def get_sentiment (c : Candle) : String :=
  if c.mid_c > c.mid_o then "🟩" else if c.mid_c < c.mid_o then "🟥" else "▪️"

/-- Python `int()` on a float or rational: truncation toward zero. -/
def pyInt (q : ℚ) : ℤ :=
  if 0 ≤ q then ⌊q⌋ else ⌈q⌉

/-- Time range the script sends to the provider (`from` and `to` query
parameters), in abstract UTC instants. -/
structure CandleRequest where
  from_time : ℤ
  to_time : ℤ
deriving DecidableEq

/-- Outcome of one `requests.get` call: a raised exception, or a response
with a status code and a decoded candle list. -/
inductive HttpOutcome where
  | exn : String → HttpOutcome
  | resp : Nat → List Candle → HttpOutcome

/-- Source `fetch_candles(instrument_code, from_time, to_time)`, with the HTTP
transport as an oracle over the issued request. The `Except` result records
whether an exception escapes: the source catches the transport exception and
turns every failure into an empty list. -/
def fetch_candles (http : CandleRequest → HttpOutcome) (now_utc from_time to_time : ℤ) :
    Except String (List Candle) :=
  let f := min from_time now_utc
  let t := min to_time now_utc
  match http { from_time := f, to_time := t } with
  | .exn _ => .ok []
  | .resp status body => if status ≠ 200 then .ok [] else .ok body

/-- Source constant `SKIP_WEEKENDS = True`. -/
def SKIP_WEEKENDS : Bool := true

/-- Source constant `TRADING_DAYS_FOR_AVERAGE = 21`. -/
def TRADING_DAYS_FOR_AVERAGE : Nat := 21

/-- Local constant `max_lookback = 60` of `compute_bucket_averages`. -/
def max_lookback : Nat := 60

/-- Source `is_weekend(date)`: Python `date.weekday() in [5, 6]`, with day
numbers counted from a fixed Monday. -/
def is_weekend (d : ℤ) : Bool :=
  d.emod 7 == 5 || d.emod 7 == 6

/-- One `bucket_volumes[bucket].append(volume)` on the `defaultdict(list)`:
append to the existing entry, or create a singleton entry at the end
(insertion order, as in a Python dict). -/
def addSample (bv : List (String × List Nat)) (b : String) (v : Nat) :
    List (String × List Nat) :=
  match bv with
  | [] => [(b, [v])]
  | (k, vs) :: rest =>
    if k = b then (k, vs ++ [v]) :: rest else (k, vs) :: addSample rest b v

/-- Body of the per-candle loop of `compute_bucket_averages`: skip candles
whose `complete` field is present and false, parse the timestamp (an
unrecognized format raises), convert to IST, and append the volume to the
candle bucket. -/
def accumCandle (bv : List (String × List Nat)) (c : Candle) :
    Except String (List (String × List Nat)) :=
  if !(c.complete.getD true) then .ok bv
  else
    match parse_candle_time c.time with
    | none => .error "ValueError"
    | some t_utc => .ok (addSample bv (get_time_bucket (astIST t_utc)) c.volume)

/-- The `for c in candles` loop of `compute_bucket_averages` over one day. -/
def dayFold : List Candle → List (String × List Nat) → Except String (List (String × List Nat))
  | [], bv => .ok bv
  | c :: cs, bv =>
    match accumCandle bv c with
    | .error e => .error e
    | .ok bv2 => dayFold cs bv2

/-- Mutable state of the walk in `compute_bucket_averages`. The field
`queried_days` is ghost instrumentation recording each day for which
`fetch_candles` was invoked; the source keeps no such list. -/
structure BAState where
  bucket_volumes : List (String × List Nat)
  trading_days_collected : Nat
  days_back : Nat
  queried_days : List ℤ
deriving DecidableEq, Inhabited

/-- One iteration of the `while` body of `compute_bucket_averages`. The
provider is an oracle from the queried IST calendar day to the candle list the
source obtains for the UTC window of that day. -/
def baStep (fetchDay : ℤ → List Candle) (today : ℤ) (st : BAState) :
    Except String BAState :=
  let day := today - (st.days_back : ℤ)
  if SKIP_WEEKENDS && is_weekend day then
    .ok { st with days_back := st.days_back + 1 }
  else
    let candles := fetchDay day
    let st1 := { st with queried_days := st.queried_days ++ [day] }
    if candles.isEmpty then .ok { st1 with days_back := st1.days_back + 1 }
    else
      match dayFold candles st1.bucket_volumes with
      | .error e => .error e
      | .ok bv2 =>
        .ok { st1 with bucket_volumes := bv2,
                       trading_days_collected := st1.trading_days_collected + 1,
                       days_back := st1.days_back + 1 }

/-- The `while trading_days_collected < TRADING_DAYS_FOR_AVERAGE and days_back
< max_lookback` loop, with explicit fuel: `none` means the fuel ran out while
the loop condition still held (never happens, see the termination theorem). -/
def baLoop (fetchDay : ℤ → List Candle) (today : ℤ) :
    Nat → BAState → Option (Except String BAState)
  | 0, st =>
    if st.trading_days_collected < TRADING_DAYS_FOR_AVERAGE ∧ st.days_back < max_lookback
    then none else some (.ok st)
  | f + 1, st =>
    if st.trading_days_collected < TRADING_DAYS_FOR_AVERAGE ∧ st.days_back < max_lookback
    then
      match baStep fetchDay today st with
      | .error e => some (.error e)
      | .ok st2 => baLoop fetchDay today f st2
    else some (.ok st)

/-- The whole walk of `compute_bucket_averages` from its initial state
(`trading_days_collected = 0`, `days_back = 1`), run with `max_lookback` fuel,
which the termination theorem shows is enough. -/
def baRun (fetchDay : ℤ → List Candle) (today : ℤ) : Option (Except String BAState) :=
  baLoop fetchDay today max_lookback
    { bucket_volumes := [], trading_days_collected := 0, days_back := 1, queried_days := [] }

/-- Final comprehension of `compute_bucket_averages`:
`{b: sum(vs)/len(vs) for b, vs in bucket_volumes.items() if vs}`. -/
def bucketAverages (bv : List (String × List Nat)) : List (String × ℚ) :=
  (bv.filter (fun p => !p.2.isEmpty)).map
    (fun p => (p.1, (p.2.sum : ℚ) / (p.2.length : ℚ)))

/-- Source `compute_bucket_averages(code)`, parameterized by the provider
oracle and the current IST date. -/
def compute_bucket_averages (fetchDay : ℤ → List Candle) (today : ℤ) :
    Except String (List (String × ℚ)) :=
  match baRun fetchDay today with
  | some (.ok st) => .ok (bucketAverages st.bucket_volumes)
  | some (.error e) => .error e
  | none => .error "loop fuel exhausted"

/-- Source constant `THRESHOLD_MULTIPLIER = 0.1`. -/
def THRESHOLD_MULTIPLIER : ℚ := 1 / 10

/-- Threshold computation of `check_recent_spikes`:
`avg = bucket_avg.get(bucket, 0); threshold = avg * multiplier if avg else 0`. -/
def thresholdOf (bucket_avg : String → Option ℚ) (mult : ℚ) (bucket : String) : ℚ :=
  let avg := (bucket_avg bucket).getD 0
  if avg ≠ 0 then avg * mult else 0

/-- Spike record appended by `check_recent_spikes` (the dictionary pushed onto
`spike_alerts`). -/
structure Alert where
  instrument : String
  time : String
  date : String
  volume : Nat
  spike_diff : ℤ
  multiplier : ℚ
  sentiment : String
  bucket : String
deriving DecidableEq

/-- The alert dictionary built in the spike branch of `check_recent_spikes`:
`spike_diff = vol - int(threshold)`, `mult = vol / threshold`, sentiment from
`get_sentiment`. -/
def mkAlert (name : String) (mult : ℚ) (bucket_avg : String → Option ℚ)
    (c : Candle) (t_ist : PyDateTime) : Alert :=
  let bucket := get_time_bucket t_ist
  let threshold := thresholdOf bucket_avg mult bucket
  { instrument := name
    time := fmt_I_M_p t_ist
    date := fmt_Y_m_d t_ist
    volume := c.volume
    spike_diff := (c.volume : ℤ) - pyInt threshold
    multiplier := (c.volume : ℚ) / threshold
    sentiment := get_sentiment c
    bucket := bucket }

/-- Body of the per-candle loop of `check_recent_spikes`: `.ok none` means the
candle was examined and produced no record, `.ok (some a)` that record `a` was
appended, `.error` that an uncaught `ValueError` escaped. -/
def processCandle (name : String) (mult : ℚ) (bucket_avg : String → Option ℚ)
    (c : Candle) : Except String (Option Alert) :=
  if !(c.complete.getD true) then .ok none
  else
    match parse_candle_time c.time with
    | none => .error "ValueError"
    | some t_utc =>
      let t_ist := astIST t_utc
      let threshold := thresholdOf bucket_avg mult (get_time_bucket t_ist)
      if 0 < threshold ∧ (c.volume : ℚ) > threshold
      then .ok (some (mkAlert name mult bucket_avg c t_ist))
      else .ok none

/-- The `for c in candles` loop of `check_recent_spikes`, accumulating
`spike_alerts` in order. -/
def spikeLoop (name : String) (mult : ℚ) (bucket_avg : String → Option ℚ) :
    List Candle → Except String (List Alert)
  | [] => .ok []
  | c :: cs =>
    match processCandle name mult bucket_avg c with
    | .error e => .error e
    | .ok none => spikeLoop name mult bucket_avg cs
    | .ok (some a) =>
      match spikeLoop name mult bucket_avg cs with
      | .error e => .error e
      | .ok rest => .ok (a :: rest)

/-- Source `check_recent_spikes(name, code)` restricted to its detection part:
the candle window is passed in place of the `fetch_candles` call, and the
baseline map in place of the `compute_bucket_averages(code)` call; the
multiplier is the source constant. -/
def check_recent_spikes (name : String) (bucket_avg : String → Option ℚ)
    (candles : List Candle) : Except String (List Alert) :=
  spikeLoop name THRESHOLD_MULTIPLIER bucket_avg candles

/-- OANDA-style timestamp in the first known encoding (nine fractional
digits, matched by `"%Y-%m-%dT%H:%M:%S.%f000Z"`). -/
def tsKnownA : String := "2024-03-05T03:45:00.000000000Z"

/-- Timestamp in the second known encoding (matched by
`"%Y-%m-%dT%H:%M:%S.000Z"` after the first format fails). -/
def tsKnownB : String := "2024-03-05T04:00:00.000Z"

/-- Timestamp matching neither known encoding (no fractional part at all). -/
def tsUnknown : String := "2024-03-05T04:15:00Z"

/-- Parsed value of `tsKnownA`: 2024-03-05 03:45:00 UTC. -/
def scenarioTime : PyDateTime := ⟨2024, 3, 5, 3, 45, 0, 0⟩

/-- Baseline map of the spec scenario: bucket 09:00 AM to 10:00 AM IST has
average 1000, all other buckets absent. -/
def scenarioMap : String → Option ℚ :=
  fun b => if b = "09:00 AM–10:00 AM" then some 1000 else none

/-- Bullish candle of the spec scenario: volume 2500 at 03:45 UTC, which is
09:15 IST. -/
def candleSpike : Candle :=
  { time := tsKnownA, volume := 2500, complete := some true, mid_o := 1, mid_c := 2 }

/-- Quiet candle of the spec scenario: volume 1800 in the same bucket. -/
def candleQuiet : Candle :=
  { time := tsKnownA, volume := 1800, complete := some true, mid_o := 2, mid_c := 1 }

/-- Candle carrying the first known timestamp encoding. -/
def candleKnownA : Candle :=
  { time := tsKnownA, volume := 100, complete := some true, mid_o := 1, mid_c := 2 }

/-- Candle carrying the second known timestamp encoding. -/
def candleKnownB : Candle :=
  { time := tsKnownB, volume := 150, complete := some true, mid_o := 2, mid_c := 1 }

/-- Candle carrying an unrecognized timestamp encoding. -/
def candleUnknown : Candle :=
  { time := tsUnknown, volume := 99, complete := some true, mid_o := 1, mid_c := 1 }

/-- Provider oracle that returns one candle for day 2 and nothing otherwise. -/
def fetchOneDay : ℤ → List Candle :=
  fun d => if d = 2 then [{ time := tsKnownA, volume := 1000, complete := some true,
                            mid_o := 1, mid_c := 1 }] else []

/-- Final walk state of `compute_bucket_averages` under the `fetchOneDay`
provider with current date 3. -/
def stW8 : BAState :=
  match baRun fetchOneDay 3 with
  | some (.ok st) => st
  | _ => default

/-- Final walk state of `compute_bucket_averages` under an all-empty provider
with current date 0. -/
def stW6 : BAState :=
  match baRun (fun _ => []) 0 with
  | some (.ok st) => st
  | _ => default

/-- Every entry of the `defaultdict` holds at least one sample. -/
def bvInv (bv : List (String × List Nat)) : Prop :=
  ∀ p ∈ bv, p.2 ≠ []

/-- Loop invariant for the baseline walk: every day handed to the provider
lies strictly before the current date, and the cursor is at least one day
back. -/
def c6Inv (today : ℤ) (st : BAState) : Prop :=
  (∀ d ∈ st.queried_days, d < today) ∧ 1 ≤ st.days_back

theorem nextDay_hour (d : PyDateTime) : (nextDay d).hour = d.hour := by
  unfold nextDay
  split
  · rfl
  · split <;> rfl

theorem nextDay_minute (d : PyDateTime) : (nextDay d).minute = d.minute := by
  unfold nextDay
  split
  · rfl
  · split <;> rfl

theorem iterate_nextDay_hour (n : Nat) (d : PyDateTime) :
    (Nat.iterate nextDay n d).hour = d.hour := by
  induction n generalizing d with
  | zero => rfl
  | succ k ih =>
    rw [show Nat.iterate nextDay (k + 1) d = Nat.iterate nextDay k (nextDay d) from rfl,
      ih, nextDay_hour]

theorem iterate_nextDay_minute (n : Nat) (d : PyDateTime) :
    (Nat.iterate nextDay n d).minute = d.minute := by
  induction n generalizing d with
  | zero => rfl
  | succ k ih =>
    rw [show Nat.iterate nextDay (k + 1) d = Nat.iterate nextDay k (nextDay d) from rfl,
      ih, nextDay_minute]

theorem addMinutes_hour (d : PyDateTime) (k : Nat) :
    (addMinutes d k).hour = ((d.hour * 60 + d.minute + k) / 60) % 24 := by
  unfold addMinutes
  rw [iterate_nextDay_hour]

theorem addMinutes_minute (d : PyDateTime) (k : Nat) :
    (addMinutes d k).minute = (d.hour * 60 + d.minute + k) % 60 := by
  unfold addMinutes
  rw [iterate_nextDay_minute]

theorem fmt_I_M_p_congr (a b : PyDateTime) (hh : a.hour = b.hour)
    (hm : a.minute = b.minute) : fmt_I_M_p a = fmt_I_M_p b := by
  simp only [fmt_I_M_p, hh, hm]

theorem get_time_bucket_congr (t1 t2 : PyDateTime) (hh : t1.hour = t2.hour)
    (hm : t1.minute / BUCKET_MINUTES = t2.minute / BUCKET_MINUTES) :
    get_time_bucket t1 = get_time_bucket t2 := by
  unfold get_time_bucket bucket_end_of
  have h1 : fmt_I_M_p (bucket_start_of t1) = fmt_I_M_p (bucket_start_of t2) :=
    fmt_I_M_p_congr _ _ (by simp [bucket_start_of, hh]) (by simp [bucket_start_of, hm])
  have h2 : fmt_I_M_p (addMinutes (bucket_start_of t1) BUCKET_MINUTES) =
      fmt_I_M_p (addMinutes (bucket_start_of t2) BUCKET_MINUTES) :=
    fmt_I_M_p_congr _ _
      (by rw [addMinutes_hour, addMinutes_hour]; simp [bucket_start_of, hh, hm])
      (by rw [addMinutes_minute, addMinutes_minute]; simp [bucket_start_of, hh, hm])
  rw [h1, h2]

/-- C7: timestamps in the same bucket-width window of the same hour at the
same time of day get the same bucket label regardless of calendar date, the
bucket start minute is the window floor (a multiple of the width past the
hour), and the bucket end is the start plus the width in minutes. -/
theorem c7_bucket_label_stable (t1 t2 : PyDateTime) :
    (t1.hour = t2.hour → t1.minute / BUCKET_MINUTES = t2.minute / BUCKET_MINUTES →
      get_time_bucket t1 = get_time_bucket t2) ∧
    (bucket_start_of t1).minute = (t1.minute / BUCKET_MINUTES) * BUCKET_MINUTES ∧
    BUCKET_MINUTES ∣ (bucket_start_of t1).minute ∧
    bucket_end_of t1 = addMinutes (bucket_start_of t1) BUCKET_MINUTES :=
  ⟨get_time_bucket_congr t1 t2, rfl,
    dvd_mul_left BUCKET_MINUTES (t1.minute / BUCKET_MINUTES), rfl⟩

/-- Witness for C7 at two concrete timestamps on different calendar dates with
different seconds, both at 09:xx. -/
theorem c7_witness :
    get_time_bucket ⟨2024, 1, 1, 9, 15, 0, 0⟩ = get_time_bucket ⟨2025, 6, 30, 9, 40, 22, 5⟩ :=
  (c7_bucket_label_stable ⟨2024, 1, 1, 9, 15, 0, 0⟩ ⟨2025, 6, 30, 9, 40, 22, 5⟩).1 rfl rfl

theorem processCandle_eq (name : String) (mult : ℚ) (bucket_avg : String → Option ℚ)
    (c : Candle) (t : PyDateTime) (hc : c.complete.getD true = true)
    (ht : parse_candle_time c.time = some t) :
    processCandle name mult bucket_avg c =
      if 0 < thresholdOf bucket_avg mult (get_time_bucket (astIST t)) ∧
          (c.volume : ℚ) > thresholdOf bucket_avg mult (get_time_bucket (astIST t))
      then .ok (some (mkAlert name mult bucket_avg c (astIST t)))
      else .ok none := by
  unfold processCandle
  rw [hc, ht]
  simp

/-- C1: for a complete candle whose timestamp parses, the detection loop of
`check_recent_spikes` appends a spike record for the candle exactly when the
threshold is strictly positive and the volume strictly exceeds it; otherwise
the loop result is unchanged, so equality with the threshold produces no
record. -/
theorem c1_spike_iff_strictly_over_threshold (name : String) (mult : ℚ)
    (bucket_avg : String → Option ℚ) (c : Candle) (cs : List Candle) (t : PyDateTime)
    (hc : c.complete.getD true = true) (ht : parse_candle_time c.time = some t) :
    ((0 < thresholdOf bucket_avg mult (get_time_bucket (astIST t)) ∧
        (c.volume : ℚ) > thresholdOf bucket_avg mult (get_time_bucket (astIST t))) →
      spikeLoop name mult bucket_avg (c :: cs) =
        Except.map (fun rest => mkAlert name mult bucket_avg c (astIST t) :: rest)
          (spikeLoop name mult bucket_avg cs)) ∧
    (¬(0 < thresholdOf bucket_avg mult (get_time_bucket (astIST t)) ∧
        (c.volume : ℚ) > thresholdOf bucket_avg mult (get_time_bucket (astIST t))) →
      spikeLoop name mult bucket_avg (c :: cs) = spikeLoop name mult bucket_avg cs) := by
  have hp := processCandle_eq name mult bucket_avg c t hc ht
  constructor
  · intro hcond
    rw [if_pos hcond] at hp
    simp only [spikeLoop, hp]
    cases spikeLoop name mult bucket_avg cs <;> simp [Except.map]
  · intro hcond
    rw [if_neg hcond] at hp
    simp only [spikeLoop, hp]

theorem scenario_bucket : get_time_bucket (astIST scenarioTime) = "09:00 AM–10:00 AM" := rfl

theorem scenario_threshold :
    thresholdOf scenarioMap 2 (get_time_bucket (astIST scenarioTime)) = 2000 := by
  rw [scenario_bucket]
  norm_num [thresholdOf, scenarioMap]

/-- Witness for C1: the scenario candle with volume 2500 over threshold 2000
produces exactly its record. -/
theorem c1_witness :
    spikeLoop "XAUUSD" 2 scenarioMap [candleSpike] =
      .ok [mkAlert "XAUUSD" 2 scenarioMap candleSpike (astIST scenarioTime)] := by
  have h := (c1_spike_iff_strictly_over_threshold "XAUUSD" 2 scenarioMap candleSpike []
    scenarioTime rfl rfl).1 (by rw [scenario_threshold]; norm_num [candleSpike])
  rw [h]
  rfl

/-- C3: a spike-producing candle yields a record whose excess is the volume
minus the floor of the threshold, whose applied multiplier is the volume
divided by the threshold, and whose sentiment marker is bullish, bearish or
neutral according to the close-open comparison. -/
theorem c3_alert_field_arithmetic (name : String) (mult : ℚ)
    (bucket_avg : String → Option ℚ) (c : Candle) (t : PyDateTime)
    (hc : c.complete.getD true = true) (ht : parse_candle_time c.time = some t)
    (hth : 0 < thresholdOf bucket_avg mult (get_time_bucket (astIST t)))
    (hv : (c.volume : ℚ) > thresholdOf bucket_avg mult (get_time_bucket (astIST t))) :
    ∃ a, processCandle name mult bucket_avg c = .ok (some a) ∧
      a.spike_diff = (c.volume : ℤ) - ⌊thresholdOf bucket_avg mult (get_time_bucket (astIST t))⌋ ∧
      a.multiplier = (c.volume : ℚ) / thresholdOf bucket_avg mult (get_time_bucket (astIST t)) ∧
      (c.mid_o < c.mid_c → a.sentiment = "🟩") ∧
      (c.mid_c < c.mid_o → a.sentiment = "🟥") ∧
      (c.mid_c = c.mid_o → a.sentiment = "▪️") := by
  have hp := processCandle_eq name mult bucket_avg c t hc ht
  rw [if_pos ⟨hth, hv⟩] at hp
  refine ⟨_, hp, ?_, rfl, ?_, ?_, ?_⟩
  · show (c.volume : ℤ) - pyInt _ = _
    rw [pyInt, if_pos hth.le]
  · intro h
    simp [mkAlert, get_sentiment, h]
  · intro h
    simp [mkAlert, get_sentiment, h, not_lt_of_gt h]
  · intro h
    simp [mkAlert, get_sentiment, h]

/-- Witness for C3: the spec scenario, baseline 1000 and multiplier 2 in the
09:00 AM to 10:00 AM bucket: volume 2500 gives multiplier 1.25 and excess 500
with bullish sentiment, volume 1800 gives no record. -/
theorem c3_witness :
    (∃ a, processCandle "XAUUSD" 2 scenarioMap candleSpike = .ok (some a) ∧
      a.multiplier = 5 / 4 ∧ a.spike_diff = 500 ∧ a.sentiment = "🟩") ∧
    processCandle "XAUUSD" 2 scenarioMap candleQuiet = .ok none := by
  obtain ⟨a, ha, hd, hm, hbull, _, _⟩ := c3_alert_field_arithmetic "XAUUSD" 2 scenarioMap
    candleSpike scenarioTime rfl rfl (by rw [scenario_threshold]; norm_num)
    (by rw [scenario_threshold]; norm_num [candleSpike])
  rw [scenario_threshold] at hd hm
  have hq := processCandle_eq "XAUUSD" 2 scenarioMap candleQuiet scenarioTime rfl rfl
  rw [scenario_threshold, if_neg (by norm_num [candleQuiet])] at hq
  refine ⟨⟨a, ha, ?_, ?_, hbull (by norm_num [candleSpike])⟩, hq⟩
  · rw [hm]; norm_num [candleSpike]
  · rw [hd]; norm_num [candleSpike]

/-- C5: a complete, parseable candle whose bucket is absent from the baseline
map has threshold 0 and produces no record, and every record the loop body
does produce comes with a strictly positive threshold, so the division
`volume / threshold` is only reached with a nonzero divisor. -/
theorem c5_absent_bucket_never_triggers (name : String) (mult : ℚ)
    (bucket_avg : String → Option ℚ) (c : Candle) (t : PyDateTime)
    (hc : c.complete.getD true = true) (ht : parse_candle_time c.time = some t) :
    (bucket_avg (get_time_bucket (astIST t)) = none →
      thresholdOf bucket_avg mult (get_time_bucket (astIST t)) = 0 ∧
      processCandle name mult bucket_avg c = .ok none) ∧
    (∀ a, processCandle name mult bucket_avg c = .ok (some a) →
      0 < thresholdOf bucket_avg mult (get_time_bucket (astIST t))) := by
  have hp := processCandle_eq name mult bucket_avg c t hc ht
  constructor
  · intro hnone
    have hz : thresholdOf bucket_avg mult (get_time_bucket (astIST t)) = 0 := by
      simp [thresholdOf, hnone]
    refine ⟨hz, ?_⟩
    rw [hp, if_neg]
    rintro ⟨h1, -⟩
    rw [hz] at h1
    exact lt_irrefl 0 h1
  · intro a ha
    by_contra hle
    rw [hp, if_neg (fun hcond => hle hcond.1)] at ha
    simp at ha

/-- Witness for C5 at an all-absent baseline map. -/
theorem c5_witness :
    thresholdOf (fun _ => none) 2 (get_time_bucket (astIST scenarioTime)) = 0 ∧
    processCandle "XAUUSD" 2 (fun _ => none) candleSpike = .ok none :=
  (c5_absent_bucket_never_triggers "XAUUSD" 2 (fun _ => none) candleSpike
    scenarioTime rfl rfl).1 rfl

/-- C10: a candle without the `complete` key is treated exactly like one with
`complete = true` by both the baseline accumulator and the detection loop
body, while a candle with `complete = false` is discarded by both. -/
theorem c10_missing_complete_defaults_true (name : String) (mult : ℚ)
    (bucket_avg : String → Option ℚ) (bv : List (String × List Nat)) (c : Candle) :
    processCandle name mult bucket_avg { c with complete := none } =
      processCandle name mult bucket_avg { c with complete := some true } ∧
    accumCandle bv { c with complete := none } =
      accumCandle bv { c with complete := some true } ∧
    processCandle name mult bucket_avg { c with complete := some false } = .ok none ∧
    accumCandle bv { c with complete := some false } = .ok bv := by
  refine ⟨?_, ?_, rfl, rfl⟩
  · simp [processCandle, mkAlert, get_sentiment]
  · simp [accumCandle]

/-- C2 evidence: the two known timestamp encodings both parse, the third
string parses under neither, and a candle carrying it makes both the
detection loop and the baseline accumulation loop abort with the uncaught
`ValueError` instead of skipping that candle: the candle after it is never
processed. -/
theorem c2_unknown_format_aborts_run :
    (parse_candle_time tsKnownA).isSome = true ∧
    (parse_candle_time tsKnownB).isSome = true ∧
    parse_candle_time tsUnknown = none ∧
    spikeLoop "XAUUSD" THRESHOLD_MULTIPLIER (fun _ => some 10)
      [candleKnownA, candleUnknown, candleKnownB] = .error "ValueError" ∧
    dayFold [candleKnownA, candleUnknown, candleKnownB] [] = .error "ValueError" := by
  refine ⟨rfl, rfl, rfl, ?_, rfl⟩
  have hth : thresholdOf (fun _ => some 10) THRESHOLD_MULTIPLIER
      (get_time_bucket (astIST scenarioTime)) = 1 := by
    norm_num [thresholdOf, THRESHOLD_MULTIPLIER]
  have hpA := processCandle_eq "XAUUSD" THRESHOLD_MULTIPLIER (fun _ => some 10)
    candleKnownA scenarioTime rfl rfl
  rw [hth, if_pos (by norm_num [candleKnownA])] at hpA
  have hpU : processCandle "XAUUSD" THRESHOLD_MULTIPLIER (fun _ => some 10)
      candleUnknown = .error "ValueError" := rfl
  simp only [spikeLoop, hpA, hpU]

theorem addSample_bvInv : ∀ (bv : List (String × List Nat)) (b : String) (v : Nat),
    bvInv bv → bvInv (addSample bv b v) := by
  intro bv b v
  induction bv with
  | nil =>
    intro h p hp
    simp only [addSample] at hp
    rw [List.mem_singleton.mp hp]
    simp
  | cons q rest ih =>
    obtain ⟨k, vs⟩ := q
    intro h
    simp only [addSample]
    split
    · intro p hp
      rcases List.mem_cons.mp hp with h1 | h1
      · rw [h1]; simp
      · exact h p (List.mem_cons_of_mem _ h1)
    · intro p hp
      rcases List.mem_cons.mp hp with h1 | h1
      · rw [h1]; exact h (k, vs) (List.mem_cons_self _ _)
      · exact ih (fun p2 hp2 => h p2 (List.mem_cons_of_mem _ hp2)) p h1

theorem accumCandle_bvInv (bv : List (String × List Nat)) (c : Candle)
    (bv2 : List (String × List Nat)) (h1 : bvInv bv) (h2 : accumCandle bv c = .ok bv2) :
    bvInv bv2 := by
  simp only [accumCandle] at h2
  split at h2
  · injection h2 with h3
    subst h3
    exact h1
  · split at h2
    · exact Except.noConfusion h2
    · injection h2 with h3
      subst h3
      exact addSample_bvInv bv _ _ h1

theorem dayFold_bvInv : ∀ (cs : List Candle) (bv bv2 : List (String × List Nat)),
    bvInv bv → dayFold cs bv = .ok bv2 → bvInv bv2 := by
  intro cs
  induction cs with
  | nil =>
    intro bv bv2 h1 h2
    simp only [dayFold] at h2
    injection h2 with h3
    subst h3
    exact h1
  | cons c cs2 ih =>
    intro bv bv2 h1 h2
    simp only [dayFold] at h2
    split at h2
    · exact Except.noConfusion h2
    · next bvm heq => exact ih bvm bv2 (accumCandle_bvInv bv c bvm h1 heq) h2

theorem baStep_spec (fetchDay : ℤ → List Candle) (today : ℤ) (st st2 : BAState)
    (h : baStep fetchDay today st = .ok st2) :
    st2.days_back = st.days_back + 1 ∧
    (st2.queried_days = st.queried_days ∨
      st2.queried_days = st.queried_days ++ [today - (st.days_back : ℤ)]) ∧
    (bvInv st.bucket_volumes → bvInv st2.bucket_volumes) := by
  simp only [baStep] at h
  split at h
  · injection h with h2
    subst h2
    exact ⟨rfl, Or.inl rfl, fun hi => hi⟩
  · split at h
    · injection h with h2
      subst h2
      exact ⟨rfl, Or.inr rfl, fun hi => hi⟩
    · split at h
      · exact Except.noConfusion h
      · next bv2 heq =>
        injection h with h2
        subst h2
        exact ⟨rfl, Or.inr rfl, fun hi => dayFold_bvInv _ _ _ hi heq⟩

theorem baLoop_invariant (fetchDay : ℤ → List Candle) (today : ℤ) (P : BAState → Prop)
    (hstep : ∀ st st2, P st → baStep fetchDay today st = .ok st2 → P st2) :
    ∀ fuel st st2, P st → baLoop fetchDay today fuel st = some (.ok st2) → P st2 := by
  intro fuel
  induction fuel with
  | zero =>
    intro st st2 hP h
    simp only [baLoop] at h
    split at h
    · exact Option.noConfusion h
    · injection h with h2
      injection h2 with h3
      subst h3
      exact hP
  | succ f ih =>
    intro st st2 hP h
    simp only [baLoop] at h
    split at h
    · split at h
      · injection h with h2
        exact Except.noConfusion h2
      · next st3 heq => exact ih st3 st2 (hstep st st3 hP heq) h
    · injection h with h2
      injection h2 with h3
      subst h3
      exact hP

theorem baLoop_isSome (fetchDay : ℤ → List Candle) (today : ℤ) :
    ∀ fuel st, max_lookback ≤ st.days_back + fuel →
      (baLoop fetchDay today fuel st).isSome = true := by
  intro fuel
  induction fuel with
  | zero =>
    intro st hle
    simp only [baLoop]
    split
    · next hcond =>
      have h1 : (60 : Nat) ≤ st.days_back + 0 := hle
      have h2 : st.days_back < 60 := hcond.2
      omega
    · rfl
  | succ f ih =>
    intro st hle
    simp only [baLoop]
    split
    · split
      · rfl
      · next st2 heq =>
        have hdb := (baStep_spec fetchDay today st st2 heq).1
        have h1 : (60 : Nat) ≤ st.days_back + (f + 1) := hle
        exact ih st2 (by show (60 : Nat) ≤ st2.days_back + f; omega)
    · rfl

theorem baStep_empty (today : ℤ) (st : BAState) :
    ∃ st2, baStep (fun _ => []) today st = .ok st2 ∧
      st2.bucket_volumes = st.bucket_volumes ∧ st2.days_back = st.days_back + 1 := by
  simp only [baStep]
  split
  · exact ⟨_, rfl, rfl, rfl⟩
  · exact ⟨_, rfl, rfl, rfl⟩

theorem baLoop_empty (today : ℤ) :
    ∀ fuel st, max_lookback ≤ st.days_back + fuel →
      ∃ st2, baLoop (fun _ => []) today fuel st = some (.ok st2) ∧
        st2.bucket_volumes = st.bucket_volumes := by
  intro fuel
  induction fuel with
  | zero =>
    intro st hle
    simp only [baLoop]
    split
    · next hcond =>
      have h1 : (60 : Nat) ≤ st.days_back + 0 := hle
      have h2 : st.days_back < 60 := hcond.2
      omega
    · exact ⟨st, rfl, rfl⟩
  | succ f ih =>
    intro st hle
    simp only [baLoop]
    split
    · obtain ⟨st2, hstep, hbv, hdb⟩ := baStep_empty today st
      rw [hstep]
      have h1 : (60 : Nat) ≤ st.days_back + (f + 1) := hle
      obtain ⟨st3, h3, hbv3⟩ := ih st2 (by show (60 : Nat) ≤ st2.days_back + f; omega)
      exact ⟨st3, h3, hbv3.trans hbv⟩
    · exact ⟨st, rfl, rfl⟩

/-- C4: the baseline walk exits within the 60-calendar-day cap for every
possible provider behaviour (the fuel `max_lookback` is never exhausted), and
with a provider that returns an empty candle list for every day it returns the
empty baseline map instead of hanging. -/
theorem c4_walk_terminates (fetchDay : ℤ → List Candle) (today : ℤ) :
    (baRun fetchDay today).isSome = true ∧
    compute_bucket_averages (fun _ => []) today = .ok [] := by
  constructor
  · exact baLoop_isSome fetchDay today max_lookback
      ⟨[], 0, 1, []⟩ (by show (60 : Nat) ≤ 1 + 60; omega)
  · obtain ⟨st2, h2, hbv⟩ := baLoop_empty today max_lookback
      ⟨[], 0, 1, []⟩ (by show (60 : Nat) ≤ 1 + 60; omega)
    have hrun : baRun (fun _ => []) today = some (.ok st2) := h2
    simp only [compute_bucket_averages, hrun]
    rw [hbv]
    rfl

/-- C6: every calendar day for which the baseline walk requested candles lies
strictly before the current display-time-zone date: the walk starts at
yesterday and only moves further back, so the in-progress session is never
sampled. -/
theorem c6_walk_queries_only_past_days (fetchDay : ℤ → List Candle) (today : ℤ)
    (st : BAState) (h : baRun fetchDay today = some (.ok st)) :
    ∀ d ∈ st.queried_days, d < today := by
  have hstep : ∀ s s2, c6Inv today s → baStep fetchDay today s = .ok s2 → c6Inv today s2 := by
    intro s s2 hP hs
    obtain ⟨hdb, hq, -⟩ := baStep_spec fetchDay today s s2 hs
    refine ⟨?_, by omega⟩
    cases hq with
    | inl he => rw [he]; exact hP.1
    | inr he =>
      rw [he]
      intro d hd
      rcases List.mem_append.mp hd with h1 | h1
      · exact hP.1 d h1
      · have h2 : (1 : ℤ) ≤ (s.days_back : ℤ) := by exact_mod_cast hP.2
        rw [List.mem_singleton.mp h1]
        omega
  have hInv := baLoop_invariant fetchDay today (c6Inv today) hstep max_lookback
    ⟨[], 0, 1, []⟩ st ⟨(by intro d hd; cases hd), Nat.le_refl 1⟩ h
  exact hInv.1

/-- Witness for C6: a full 59-day walk against an empty provider with current
date 0 queries only negative day numbers. -/
theorem c6_witness : stW6.queried_days.all (fun d => decide (d < (0 : ℤ))) = true :=
  List.all_eq_true.mpr (fun d hd =>
    decide_eq_true (c6_walk_queries_only_past_days (fun _ => []) 0 stW6 rfl d hd))

theorem lookup_bucketAverages : ∀ (bv : List (String × List Nat)), bvInv bv → ∀ b : String,
    (List.lookup b bv = none → List.lookup b (bucketAverages bv) = none) ∧
    (∀ vs, List.lookup b bv = some vs →
      vs ≠ [] ∧ List.lookup b (bucketAverages bv) =
        some ((vs.sum : ℚ) / (vs.length : ℚ))) := by
  intro bv
  induction bv with
  | nil =>
    intro hinv b
    exact ⟨fun _ => rfl, fun vs h => Option.noConfusion h⟩
  | cons q rest ih =>
    obtain ⟨k, vs0⟩ := q
    intro hinv b
    have hne : vs0 ≠ [] := hinv (k, vs0) (List.mem_cons_self _ _)
    have hinv2 : bvInv rest := fun p hp => hinv p (List.mem_cons_of_mem _ hp)
    have hBA : bucketAverages ((k, vs0) :: rest) =
        (k, (vs0.sum : ℚ) / (vs0.length : ℚ)) :: bucketAverages rest := by
      cases vs0 with
      | nil => exact absurd rfl hne
      | cons v vst => rfl
    constructor
    · intro hnone
      cases hbk : b == k with
      | true => simp [List.lookup, hbk] at hnone
      | false =>
        rw [hBA]
        simp only [List.lookup, hbk] at hnone ⊢
        exact (ih hinv2 b).1 hnone
    · intro vs hsome
      cases hbk : b == k with
      | true =>
        simp only [List.lookup, hbk] at hsome
        injection hsome with h4
        subst h4
        refine ⟨hne, ?_⟩
        rw [hBA]
        simp [List.lookup, hbk]
      | false =>
        simp only [List.lookup, hbk] at hsome
        obtain ⟨h5, h6⟩ := (ih hinv2 b).2 vs hsome
        refine ⟨h5, ?_⟩
        rw [hBA]
        simp only [List.lookup, hbk]
        exact h6

/-- C8: for every completed walk, the returned baseline map holds, for each
bucket that accumulated at least one sample, exactly the arithmetic mean
sum of volumes over sample count, and holds no entry at all for a bucket
without samples. -/
theorem c8_map_is_mean_of_samples (fetchDay : ℤ → List Candle) (today : ℤ)
    (st : BAState) (h : baRun fetchDay today = some (.ok st)) :
    compute_bucket_averages fetchDay today = .ok (bucketAverages st.bucket_volumes) ∧
    ∀ b : String,
      (List.lookup b st.bucket_volumes = none →
        List.lookup b (bucketAverages st.bucket_volumes) = none) ∧
      (∀ vs, List.lookup b st.bucket_volumes = some vs →
        vs ≠ [] ∧ List.lookup b (bucketAverages st.bucket_volumes) =
          some ((vs.sum : ℚ) / (vs.length : ℚ))) := by
  have hInv : bvInv st.bucket_volumes :=
    baLoop_invariant fetchDay today (fun s => bvInv s.bucket_volumes)
      (fun s s2 hP hs => (baStep_spec fetchDay today s s2 hs).2.2 hP)
      max_lookback ⟨[], 0, 1, []⟩ st (fun p hp => absurd hp (List.not_mem_nil p)) h
  refine ⟨?_, fun b => lookup_bucketAverages st.bucket_volumes hInv b⟩
  simp only [compute_bucket_averages, h]

/-- Witness for C8: a provider with a single 1000-volume candle on one day
yields a map whose 09:00 AM to 10:00 AM entry is the mean of that sample
list. -/
theorem c8_witness :
    List.lookup "09:00 AM–10:00 AM" (bucketAverages stW8.bucket_volumes) =
      some ((([1000] : List Nat).sum : ℚ) / (([1000] : List Nat).length : ℚ)) ∧
    ([1000] : List Nat) ≠ [] := by
  have h := ((c8_map_is_mean_of_samples fetchOneDay 3 stW8 rfl).2 "09:00 AM–10:00 AM").2
    [1000] rfl
  exact ⟨h.2, h.1⟩

/-- C9: `fetch_candles` clips a requested end time in the future down to the
current time before issuing the request, and returns an empty candle list
without raising on a transport exception or a non-200 status. -/
theorem c9_fetch_clips_and_never_raises (http : CandleRequest → HttpOutcome)
    (now_utc from_time to_time : ℤ) :
    (∃ l, fetch_candles http now_utc from_time to_time = .ok l) ∧
    (now_utc < to_time →
      fetch_candles http now_utc from_time to_time =
        fetch_candles http now_utc from_time now_utc) ∧
    (∀ e, http ⟨min from_time now_utc, min to_time now_utc⟩ = .exn e →
      fetch_candles http now_utc from_time to_time = .ok []) ∧
    (∀ s body, http ⟨min from_time now_utc, min to_time now_utc⟩ = .resp s body →
      s ≠ 200 → fetch_candles http now_utc from_time to_time = .ok []) := by
  refine ⟨?_, ?_, ?_, ?_⟩
  · simp only [fetch_candles]
    cases hh : http { from_time := min from_time now_utc, to_time := min to_time now_utc } with
    | exn e => exact ⟨[], rfl⟩
    | resp s body =>
      by_cases hs : s = 200
      · exact ⟨body, by simp [hs]⟩
      · exact ⟨[], by simp [hs]⟩
  · intro hlt
    have h1 : min to_time now_utc = now_utc := min_eq_right hlt.le
    simp only [fetch_candles, h1, min_self]
  · intro e he
    simp only [fetch_candles, he]
  · intro s body hr hs
    simp only [fetch_candles, hr]
    simp [hs]

/-- Witness for C9: a transport exception on a request whose end time 20 lies
past the current time 10 still yields the empty list. -/
theorem c9_witness :
    fetch_candles (fun _ => HttpOutcome.exn "boom") 10 0 20 = .ok [] ∧ ((10 : ℤ) < 20) :=
  ⟨(c9_fetch_clips_and_never_raises (fun _ => HttpOutcome.exn "boom") 10 0 20).2.2.1
    "boom" rfl, by norm_num⟩
